import Mathlib

/-!
Verification of the genens benchmark-orchestration harness
(`genens/tests/run_openml.py` and `genens/genens/render/plot.py`).

The Python source is shallowly embedded: pure helpers become Lean
functions, and the stateful orchestration (`run_task`, `run_tests`,
`_create_dir_check`, `evaluate_pipeline`, `_log_evolution`) becomes
explicit state passing over an abstract filesystem together with an
effect trace.  External collaborators (OpenML, the Evolver, sklearn,
stopit) are modelled by oracles carried in the input: the Evolver's
fit call is an oracle `FitBehavior` describing what the call would do
(return after some wall-clock time, raise, or never return), and
wall-clock durations of external operations are oracle fields used
only to reason about elapsed time.
-/

namespace Genens

/-! ### SampleSizePolicy: `_heuristic_sample_size` (run_openml.py, lines 80-102) -/

/-- Direct translation of `_heuristic_sample_size(n_rows, n_cols)`. -/
def heuristic_sample_size (n_rows n_cols : Nat) : Rat :=
  let size := n_rows * n_cols
  if size < 10000 then 1.0
  else if n_rows < 1000 then 0.5
  else if n_rows < 5000 then 0.25
  else if n_rows < 10000 then 0.1
  else if n_rows < 20000 then 0.05
  else if n_cols < 10 then 0.02
  else 0.01

/-! ### ImputationSelector: `_conditional_imput` (run_openml.py, lines 105-116) -/

/-- Fill strategy of an sklearn `SimpleImputer`. -/
inductive ImputeStrategy where
  | mean
  | median
deriving DecidableEq, Repr, Inhabited

/-- One `(name, SimpleImputer(strategy), column_ids)` entry of the
`ColumnTransformer` built by `_conditional_imput`. -/
structure TransformerSpec where
  name : String
  strategy : ImputeStrategy
  columns : List Nat
deriving DecidableEq, Repr, Inhabited

/-- Direct translation of `_conditional_imput(X, categorical)`: the
categorical ids are the enumerate positions where the mask is truthy,
the numerical ids those where it is falsy, and the composite is a
`ColumnTransformer` imputing numerical columns with the mean and
categorical columns with the median.  (The `X` argument is unused in
the source as well.) -/
def conditional_imput (categorical : List Bool) : List TransformerSpec :=
  let categorical_id := (categorical.enum.filter (fun p => p.2)).map (fun p => p.1)
  let numerical_id := (categorical.enum.filter (fun p => !p.2)).map (fun p => p.1)
  [{ name := "mean_imputer", strategy := ImputeStrategy.mean, columns := numerical_id },
   { name := "median_imputer", strategy := ImputeStrategy.median, columns := categorical_id }]

/-- Mean of a list of rationals (sklearn `SimpleImputer(strategy='mean')`
fill value over the non-missing entries of a column). -/
def listMean (l : List Rat) : Rat := l.sum / l.length

/-- Median of a list of rationals, as `numpy.median` computes it for the
non-missing entries of a column: sort, take the middle element for odd
length, the average of the two middle elements for even length. -/
def listMedian (l : List Rat) : Rat :=
  let s := l.insertionSort (fun a b => a ≤ b)
  let n := s.length
  if n % 2 = 1 then s.getD (n / 2) 0
  else (s.getD (n / 2 - 1) 0 + s.getD (n / 2) 0) / 2

/-- The non-missing entries of a column. -/
def presentValues (col : List (Option Rat)) : List Rat := col.filterMap id

/-- The fill value a `SimpleImputer` with the given strategy computes
for a column. -/
def fillValue : ImputeStrategy → List (Option Rat) → Rat
  | ImputeStrategy.mean, col => listMean (presentValues col)
  | ImputeStrategy.median, col => listMedian (presentValues col)

/-- `SimpleImputer.transform` on one column: missing entries are
replaced by the strategy's fill value, present entries are unchanged. -/
def imputeColumn (s : ImputeStrategy) (col : List (Option Rat)) : List Rat :=
  col.map (fun v => v.getD (fillValue s col))

/-- Column `j` of a row-major matrix with missing entries. -/
def getColumn (X : List (List (Option Rat))) (j : Nat) : List (Option Rat) :=
  X.map (fun row => row.getD j none)

/-- `ColumnTransformer.transform`: each transformer is applied to its
selected columns and the transformed blocks are concatenated in
transformer order.  The result is the list of output columns. -/
def transformOutput (ts : List TransformerSpec) (X : List (List (Option Rat))) :
    List (List Rat) :=
  ts.flatMap (fun t => t.columns.map (fun j => imputeColumn t.strategy (getColumn X j)))

/-! ### Evolution plot: `export_plot` (genens/render/plot.py, lines 8-41) -/

/-- The per-generation statistics history the Evolver exposes
(`logbook.select("gen")`, `chapters["score"|"test_score"].select("max"|"avg")`). -/
structure Logbook where
  gen : List Nat
  score_max : List Rat
  score_avg : List Rat
  test_max : List Rat
  test_avg : List Rat
deriving DecidableEq, Repr

/-- The labels of the lines `export_plot` draws, in drawing order.
Translation of the branch on `test_all_zero = np.all(test_max == 0.0)
and np.all(test_avg == 0.0)`: when every test sample is zero only the
two training-score lines are drawn, otherwise the two test lines are
added. -/
def plot_series (lb : Logbook) : List String :=
  let test_all_zero := lb.test_max.all (fun x => x == 0) && lb.test_avg.all (fun x => x == 0)
  if test_all_zero then
    ["Maximum Score", "Average Score"]
  else
    ["Maximum Score", "Average Score", "Maximum Test score", "Average Test score"]

/-! ### The orchestration harness (run_openml.py)

State and effects.  The filesystem is abstracted to the set of
directories that exist and the set of files that have been written;
every externally visible action of the harness is recorded in an
effect trace in program order. -/

/-- An opaque candidate pipeline object returned by
`clf.get_best_pipelines()`; `pid` is its identity. -/
structure Pipeline where
  pid : Nat
deriving DecidableEq, Repr

/-- A wrapped individual returned by
`clf.get_best_pipelines(as_individuals=True)`, carrying
`ind.fitness.values`. -/
structure Individual where
  fitnessValues : List Rat
deriving DecidableEq, Repr

/-- `pickle.HIGHEST_PROTOCOL` of the Python 3 interpreters genens
supports, modelled as its numeric value. -/
def pickle_HIGHEST_PROTOCOL : Nat := 5

/-- Externally visible actions of the harness, in program order. -/
inductive Effect where
  /-- `openml.tasks.get_task(task_id)` -/
  | fetchTask (taskId : Nat)
  /-- `task.get_dataset()` -/
  | fetchDataset (taskId : Nat)
  /-- `dataset.get_data(...)` -/
  | getData (taskId : Nat)
  /-- a successful `os.mkdir(path)` -/
  | mkdirOk (path : String)
  /-- `print(msg)` -/
  | printMsg (msg : String)
  /-- opening `path` for writing and writing its content -/
  | writeFile (path : String)
  /-- `plt.savefig` of the evolution plot with the drawn line labels -/
  | savePlot (path : String) (series : List String)
  /-- `create_graph(ind, path)` -/
  | createGraph (path : String)
  /-- `pickle.dump(obj, file, protocol)` into `path` -/
  | pickleDump (path : String) (protocol : Nat) (obj : Pipeline)
  /-- entering `clf.fit(X, y)` -/
  | fitStart (taskId : Nat)
  /-- `openml.runs.run_model_on_task(pipe, task, avoid_duplicate_runs, upload_flow)` -/
  | runModelOnTask (taskId : Nat) (pipe : Pipeline)
      (withPreprocessing avoidDuplicateRuns uploadFlow : Bool)
  /-- `run.to_filesystem(directory=dir)` -/
  | runToFilesystem (dir : String)
deriving DecidableEq, Repr

/-- Abstract filesystem state: existing directories and written files. -/
structure FS where
  dirs : List String
  files : List String
deriving DecidableEq, Repr

/-- Add a directory to the filesystem. -/
def FS.addDir (fs : FS) (d : String) : FS := { fs with dirs := d :: fs.dirs }

/-- Record a written file. -/
def FS.addFile (fs : FS) (p : String) : FS := { fs with files := p :: fs.files }

/-- Outcome of a harness call: normal return, a propagated Python
exception, or nontermination (an unbounded fit that never returns).
Each carries the effects performed up to that point. -/
inductive RunOutcome where
  | ok (fs : FS) (trace : List Effect)
  | err (e : String) (fs : FS) (trace : List Effect)
  | hangs (trace : List Effect)
deriving DecidableEq, Repr

/-- Prefix an already-performed effect list onto an outcome's trace. -/
def prependTrace (es : List Effect) : RunOutcome → RunOutcome
  | RunOutcome.ok fs tr => RunOutcome.ok fs (es ++ tr)
  | RunOutcome.err e fs tr => RunOutcome.err e fs (es ++ tr)
  | RunOutcome.hangs tr => RunOutcome.hangs (es ++ tr)

/-- Oracle describing what the Evolver's `clf.fit(X, y)` call would do:
return after `duration` wall-clock seconds carrying the post-fit
logbook, individuals and ranked pipelines; raise an exception at time
`atTime`; or never return. -/
inductive FitBehavior where
  | returns (duration : Nat) (logbook : Logbook)
      (inds : List Individual) (pipes : List Pipeline)
  | raises (atTime : Nat) (err : String)
  | diverges
deriving DecidableEq, Repr

/-- What comes out of the `with Timeout(task_timeout, swallow_exc=False)`
block around `clf.fit`. -/
inductive FitResult where
  | done (logbook : Logbook) (inds : List Individual) (pipes : List Pipeline)
  | timeout
  | raised (e : String)
  | never
deriving DecidableEq, Repr

/-- Semantics of `stopit.ThreadingTimeout` around the fit call: with no
deadline the fit's own behavior decides; with deadline `t` the fit
completes (or raises) if it does so within `t` seconds, and otherwise a
`TimeoutException` interrupts the block at the deadline. -/
def fit_with_timeout : FitBehavior → Option Nat → FitResult
  | FitBehavior.returns _ lb inds pipes, none => FitResult.done lb inds pipes
  | FitBehavior.returns d lb inds pipes, some t =>
      if d ≤ t then FitResult.done lb inds pipes else FitResult.timeout
  | FitBehavior.raises _ e, none => FitResult.raised e
  | FitBehavior.raises a e, some t =>
      if a ≤ t then FitResult.raised e else FitResult.timeout
  | FitBehavior.diverges, none => FitResult.never
  | FitBehavior.diverges, some _ => FitResult.timeout

/-- One task of the benchmark suite together with the oracle data of
its external collaborators: what `get_task`/`get_dataset`/`get_data`
return, what the fit call would do, and the wall-clock durations of
the stages (used only to reason about elapsed real time; the harness
itself never branches on them). -/
structure TaskCase where
  task_id : Nat
  datasetName : String
  X : List (List (Option Rat))
  categorical : List Bool
  fit : FitBehavior
  loadTime : Nat
  imputeTime : Nat
  recordTime : Nat
  evalTimes : List Nat
deriving DecidableEq, Repr

/-- The diagnostic `run_task` prints on a fit timeout:
`'Timeout - task {} on dataset {}'.format(task.task_id, dataset.name)`. -/
def timeoutDiag (taskId : Nat) (name : String) : String :=
  "Timeout - task " ++ toString taskId ++ " on dataset " ++ name

/-- The message `_create_dir_check` prints when the directory exists:
`"Test directory {} already exists.".format(out_dir)`. -/
def dirExistsMsg (out_dir : String) : String :=
  "Test directory " ++ out_dir ++ " already exists."

/-- Translation of `_create_dir_check(out_dir)`: try `os.mkdir`; on
`FileExistsError` print a message and return `False`; otherwise return
`True`.  (The `OSError` re-raise branch concerns platform failures
outside the abstract filesystem model.) -/
def create_dir_check (fs : FS) (out_dir : String) : Bool × FS × List Effect :=
  if out_dir ∈ fs.dirs then
    (false, fs, [Effect.printMsg (dirExistsMsg out_dir)])
  else
    (true, fs.addDir out_dir, [Effect.mkdirOk out_dir])

/-- Translation of `evaluate_pipeline(pipe, task, out_dir, preprocessing)`:
run the (optionally preprocessing-composed) pipeline on the task with
`avoid_duplicate_runs=False, upload_flow=False`, store the run offline
under `out_dir`, and write `accuracy-score.txt` there. -/
def evaluate_pipeline (pipe : Pipeline) (taskId : Nat) (out_dir : String)
    (withPreprocessing : Bool) (fs : FS) : FS × List Effect :=
  let fs1 := (fs.addFile (out_dir ++ "/run-artifacts")).addFile (out_dir ++ "/accuracy-score.txt")
  (fs1,
   [Effect.runModelOnTask taskId pipe withPreprocessing false false,
    Effect.runToFilesystem out_dir,
    Effect.writeFile (out_dir ++ "/accuracy-score.txt")])

/-- File name `out_dir + '/pipeline{}.pickle'.format(i)`. -/
def pipelinePickleName (out_dir : String) (i : Nat) : String :=
  out_dir ++ "/pipeline" ++ toString i ++ ".pickle"

/-- File name `out_dir + '/graph{}.png'.format(i)`. -/
def graphName (out_dir : String) (i : Nat) : String :=
  out_dir ++ "/graph" ++ toString i ++ ".png"

/-- Directory name `out_dir + '/run{}'.format(i)`. -/
def runDirName (out_dir : String) (i : Nat) : String :=
  out_dir ++ "/run" ++ toString i

/-- Translation of `_log_evolution(fitted_clf, out_dir)`: write
`logbook.txt`, export the evolution plot to `result.png`, write
`ind-fitness.txt` with one line and one `graph{i}.png` per top-5
individual, and pickle the top-5 pipelines with
`pickle.HIGHEST_PROTOCOL`. -/
def log_evolution (lb : Logbook) (inds : List Individual) (pipes : List Pipeline)
    (out_dir : String) (fs : FS) : FS × List Effect :=
  let logEff := [Effect.writeFile (out_dir ++ "/logbook.txt")]
  let plotEff := [Effect.savePlot (out_dir ++ "/result.png") (plot_series lb)]
  let indEff := Effect.writeFile (out_dir ++ "/ind-fitness.txt") ::
    ((inds.take 5).enum.map (fun p => Effect.createGraph (graphName out_dir p.1)))
  let pickEff := (pipes.take 5).enum.map
    (fun p => Effect.pickleDump (pipelinePickleName out_dir p.1) pickle_HIGHEST_PROTOCOL p.2)
  let fs1 := ((fs.addFile (out_dir ++ "/logbook.txt")).addFile
      (out_dir ++ "/result.png")).addFile (out_dir ++ "/ind-fitness.txt")
  let fs2 := (pipes.take 5).enum.foldl
    (fun acc p => acc.addFile (pipelinePickleName out_dir p.1)) fs1
  (fs2, logEff ++ plotEff ++ indEff ++ pickEff)

/-- The `for i, pipe in enumerate(clf.get_best_pipelines()[:5])`
re-evaluation loop at the end of `run_task`: for each top-ranked
pipeline, `_create_dir_check(pipe_dir)` is called but its result is
discarded, and `evaluate_pipeline` runs unconditionally with the
fitted imputer as preprocessing. -/
def reEvalLoop (taskId : Nat) (out_dir : String) :
    List (Nat × Pipeline) → FS → FS × List Effect
  | [], fs => (fs, [])
  | p :: rest, fs =>
      let pipe_dir := runDirName out_dir p.1
      let r1 := create_dir_check fs pipe_dir
      let r2 := evaluate_pipeline p.2 taskId pipe_dir true r1.2.1
      let r3 := reEvalLoop taskId out_dir rest r2.1
      (r3.1, r1.2.2 ++ r2.2 ++ r3.2)

/-- Translation of `run_task(task, out_dir, n_jobs, timeout,
task_timeout)`.  Loading, imputing and sizing happen first (the pure
values are computed but produce only fetch effects); then `clf.fit`
runs inside `with Timeout(task_timeout, swallow_exc=False)`; a
`TimeoutException` prints a diagnostic and returns, any other fit
exception propagates; on completion `time.txt` is written,
`_log_evolution` records the run, and the top-5 pipelines are
re-evaluated. -/
def run_task (tc : TaskCase) (out_dir : String) (timeout task_timeout : Option Nat)
    (fs : FS) : RunOutcome :=
  let pre := [Effect.fetchDataset tc.task_id, Effect.getData tc.task_id,
              Effect.fitStart tc.task_id]
  let imputer := conditional_imput tc.categorical
  let Xt := transformOutput imputer tc.X
  let sample_size := heuristic_sample_size tc.X.length Xt.length
  -- evaluator = SampleCrossValEvaluator(cv_k=5, timeout_s=timeout, per_gen=False,
  --                                     sample_size=sample_size)
  -- clf = GenensClassifier(n_jobs=n_jobs, timeout=timeout, evaluator=evaluator,
  --                        max_height=8): pure constructions, opaque to the harness
  let _ := (sample_size, timeout)
  match fit_with_timeout tc.fit task_timeout with
  | FitResult.timeout =>
      RunOutcome.ok fs (pre ++ [Effect.printMsg (timeoutDiag tc.task_id tc.datasetName)])
  | FitResult.raised e => RunOutcome.err e fs pre
  | FitResult.never => RunOutcome.hangs pre
  | FitResult.done lb inds pipes =>
      let fs1 := fs.addFile (out_dir ++ "/time.txt")
      let timeEff := [Effect.writeFile (out_dir ++ "/time.txt")]
      let r2 := log_evolution lb inds pipes out_dir fs1
      let r3 := reEvalLoop tc.task_id out_dir (pipes.take 5).enum r2.1
      RunOutcome.ok r3.1 (pre ++ timeEff ++ r2.2 ++ r3.2)

/-- Translation of `run_tests(task_ids, out_dir, n_jobs, timeout,
task_timeout)`: iterate the suite's task identifiers; skip those
absent from an explicit `task_ids` subset before any fetch or
filesystem access; fetch the task and its dataset; check-and-create
`'/{}'.format(dataset.name)` (note: not prefixed with `out_dir`) and
skip the task on collision; otherwise run the task with artifacts
rooted at `out_dir + dataset_dir`. -/
def run_tests (task_ids : Option (List Nat)) (out_dir : String)
    (suite : List TaskCase) (timeout task_timeout : Option Nat) (fs : FS) :
    RunOutcome :=
  match suite with
  | [] => RunOutcome.ok fs []
  | tc :: rest =>
      let skip := match task_ids with
        | none => false
        | some ids => !(ids.contains tc.task_id)
      if skip then run_tests task_ids out_dir rest timeout task_timeout fs
      else
        let pre := [Effect.fetchTask tc.task_id, Effect.fetchDataset tc.task_id]
        let dataset_dir := "/" ++ tc.datasetName
        let r1 := create_dir_check fs dataset_dir
        if r1.1 then
          match run_task tc (out_dir ++ dataset_dir) timeout task_timeout r1.2.1 with
          | RunOutcome.ok fs2 tr =>
              prependTrace (pre ++ r1.2.2 ++ tr)
                (run_tests task_ids out_dir rest timeout task_timeout fs2)
          | RunOutcome.err e fs2 tr => RunOutcome.err e fs2 (pre ++ r1.2.2 ++ tr)
          | RunOutcome.hangs tr => RunOutcome.hangs (pre ++ r1.2.2 ++ tr)
        else
          prependTrace (pre ++ r1.2.2)
            (run_tests task_ids out_dir rest timeout task_timeout r1.2.1)

/-! ### Wall-clock accounting

`run_task` branches only on the fit's behavior against `task_timeout`;
these functions compute how much real time the whole task takes, to
state claims about the scope of the deadline. -/

/-- Wall-clock time spent inside the `with Timeout(task_timeout)` block. -/
def fit_elapsed : FitBehavior → Option Nat → Nat
  | FitBehavior.returns d _ _ _, none => d
  | FitBehavior.returns d _ _ _, some t => min d t
  | FitBehavior.raises a _, none => a
  | FitBehavior.raises a _, some t => min a t
  | FitBehavior.diverges, none => 0
  | FitBehavior.diverges, some t => t

/-- Total wall-clock time `run_task` spends on a task that terminates:
loading, imputing and sizing, the (possibly interrupted) fit, and — when
the fit completed — recording and the per-candidate re-evaluations. -/
def run_task_elapsed (tc : TaskCase) (task_timeout : Option Nat) : Nat :=
  tc.loadTime + tc.imputeTime + fit_elapsed tc.fit task_timeout +
    (match fit_with_timeout tc.fit task_timeout with
     | FitResult.done _ _ pipes =>
         tc.recordTime + (tc.evalTimes.take (min 5 pipes.length)).sum
     | _ => 0)

/-- Effects that create or write an artifact (file, plot, graph,
pickle, or offline run dump) on the filesystem. -/
def isArtifactWrite : Effect → Bool
  | Effect.writeFile _ => true
  | Effect.savePlot _ _ => true
  | Effect.createGraph _ => true
  | Effect.pickleDump _ _ _ => true
  | Effect.runToFilesystem _ => true
  | _ => false

/-- The trace an outcome carries. -/
def RunOutcome.trace : RunOutcome → List Effect
  | RunOutcome.ok _ tr => tr
  | RunOutcome.err _ _ tr => tr
  | RunOutcome.hangs tr => tr

/-- The directories existing after a terminating outcome. -/
def RunOutcome.finalDirs : RunOutcome → List String
  | RunOutcome.ok fs _ => fs.dirs
  | RunOutcome.err _ fs _ => fs.dirs
  | RunOutcome.hangs _ => []

/-! ### Concrete scenarios used in the claims below -/

/-- A task whose fit never returns: under any finite deadline it times
out. -/
def divergingTask : TaskCase :=
  { task_id := 2, datasetName := "vehicle", X := [], categorical := [],
    fit := FitBehavior.diverges, loadTime := 0, imputeTime := 0,
    recordTime := 0, evalTimes := [] }

/-- A task whose fit raises immediately. -/
def raisingTask : TaskCase :=
  { task_id := 2, datasetName := "vehicle", X := [], categorical := [],
    fit := FitBehavior.raises 0 "ValueError", loadTime := 0, imputeTime := 0,
    recordTime := 0, evalTimes := [] }

/-- A task whose fit completes in 1 second, well within a 10-second
task deadline, but whose single re-evaluation takes 100 seconds. -/
def slowReEvalTask : TaskCase :=
  { task_id := 7, datasetName := "iris", X := [], categorical := [],
    fit := FitBehavior.returns 1
      { gen := [0], score_max := [1], score_avg := [1], test_max := [0], test_avg := [0] }
      [{ fitnessValues := [1] }] [{ pid := 0 }],
    loadTime := 0, imputeTime := 0, recordTime := 0, evalTimes := [100] }

/-- A task whose fit completes and returns five ranked pipelines. -/
def fivePipeTask : TaskCase :=
  { task_id := 9, datasetName := "credit-g", X := [], categorical := [],
    fit := FitBehavior.returns 1
      { gen := [0], score_max := [1], score_avg := [1], test_max := [0], test_avg := [0] }
      [] [{ pid := 0 }, { pid := 1 }, { pid := 2 }, { pid := 3 }, { pid := 4 }],
    loadTime := 0, imputeTime := 0, recordTime := 0, evalTimes := [] }

/-- A task whose fit completes with one candidate, run against a
filesystem where the candidate's `run0` sub-directory already exists. -/
def rankCollisionTask : TaskCase :=
  { task_id := 11, datasetName := "splice", X := [], categorical := [],
    fit := FitBehavior.returns 1
      { gen := [0], score_max := [1], score_avg := [1], test_max := [0], test_avg := [0] }
      [{ fitnessValues := [1] }] [{ pid := 3 }],
    loadTime := 0, imputeTime := 0, recordTime := 0, evalTimes := [1] }

/-- A completing task used to compare the directory the orchestrator
checks with the directory the task writes into. -/
def mismatchTask : TaskCase :=
  { task_id := 3, datasetName := "anneal", X := [], categorical := [],
    fit := FitBehavior.returns 1
      { gen := [0], score_max := [1], score_avg := [1], test_max := [0], test_avg := [0] }
      [] [],
    loadTime := 0, imputeTime := 0, recordTime := 0, evalTimes := [] }

/-! ## Claims -/

/-- Normal form of the policy: the decimal literals written as plain
fractions and the `size` binding inlined. -/
theorem heuristic_sample_size_eq (n m : Nat) :
    heuristic_sample_size n m =
      if n * m < 10000 then 1
      else if n < 1000 then 1/2
      else if n < 5000 then 1/4
      else if n < 10000 then 1/10
      else if n < 20000 then 1/20
      else if m < 10 then 1/50
      else 1/100 := by
  unfold heuristic_sample_size
  norm_num

/-- C4: the sample-size policy is a pure total function of the row count
`n` and column count `m`: it returns 1.0 whenever `n*m < 10000`
regardless of the relative magnitude of `n` and `m`, and otherwise the
first match of the ordered rules `n<1000 → 0.5`, `n<5000 → 0.25`,
`n<10000 → 0.1`, `n<20000 → 0.05`, `m<10 → 0.02`, else `0.01` (each rule
stated here with its full two-sided guard, making first-match explicit);
its result always lies in `{1.0, 0.5, 0.25, 0.1, 0.05, 0.02, 0.01} ⊆ (0, 1]`,
and being a total Lean function it never raises. -/
theorem heuristic_sample_size_spec (n m : Nat) :
    (n * m < 10000 → heuristic_sample_size n m = 1) ∧
    (10000 ≤ n * m → n < 1000 → heuristic_sample_size n m = 1/2) ∧
    (10000 ≤ n * m → 1000 ≤ n → n < 5000 → heuristic_sample_size n m = 1/4) ∧
    (10000 ≤ n * m → 5000 ≤ n → n < 10000 → heuristic_sample_size n m = 1/10) ∧
    (10000 ≤ n * m → 10000 ≤ n → n < 20000 → heuristic_sample_size n m = 1/20) ∧
    (10000 ≤ n * m → 20000 ≤ n → m < 10 → heuristic_sample_size n m = 1/50) ∧
    (10000 ≤ n * m → 20000 ≤ n → 10 ≤ m → heuristic_sample_size n m = 1/100) ∧
    heuristic_sample_size n m ∈
      ([1, 1/2, 1/4, 1/10, 1/20, 1/50, 1/100] : List Rat) ∧
    0 < heuristic_sample_size n m ∧ heuristic_sample_size n m ≤ 1 := by
  rw [heuristic_sample_size_eq]
  refine ⟨?_, ?_, ?_, ?_, ?_, ?_, ?_, ?_, ?_, ?_⟩ <;>
    · intros
      split_ifs <;>
        first
          | (exfalso; omega)
          | norm_num [List.mem_cons]

/-- Witness for C4 at the spec's own probe points: `(900, 20)` falls
through the size rule to `n < 1000`, and `(3, 5)` is small enough for
the full dataset. -/
theorem heuristic_sample_size_spec_witness :
    heuristic_sample_size 900 20 = 1/2 ∧ heuristic_sample_size 3 5 = 1 :=
  ⟨(heuristic_sample_size_spec 900 20).2.1 (by norm_num) (by norm_num),
   (heuristic_sample_size_spec 3 5).1 (by norm_num)⟩

/-- C6: the evolution plot draws the held-out test max and avg curves if
and only if at least one test-score sample (in either the max or the avg
series) is non-zero; when every test-score sample equals exactly 0, the
plot contains only the two training-score series, never four. -/
theorem plot_series_test_curves_iff (lb : Logbook) :
    (plot_series lb =
        ["Maximum Score", "Average Score", "Maximum Test score", "Average Test score"]
      ↔ (∃ x ∈ lb.test_max, x ≠ 0) ∨ (∃ x ∈ lb.test_avg, x ≠ 0)) ∧
    ((∀ x ∈ lb.test_max, x = 0) → (∀ x ∈ lb.test_avg, x = 0) →
      plot_series lb = ["Maximum Score", "Average Score"]) := by
  have hall : (lb.test_max.all (fun x => x == 0) && lb.test_avg.all (fun x => x == 0)) = true
      ↔ (∀ x ∈ lb.test_max, x = 0) ∧ (∀ x ∈ lb.test_avg, x = 0) := by
    simp [List.all_eq_true]
  by_cases hz : (∀ x ∈ lb.test_max, x = 0) ∧ (∀ x ∈ lb.test_avg, x = 0)
  · have hb : (lb.test_max.all (fun x => x == 0) && lb.test_avg.all (fun x => x == 0)) = true :=
      hall.mpr hz
    have hp : plot_series lb = ["Maximum Score", "Average Score"] := by
      simp [plot_series, hb]
    refine ⟨?_, fun _ _ => hp⟩
    rw [hp]
    constructor
    · intro hcontra
      exact absurd hcontra (by simp)
    · rintro (⟨x, hx, hx0⟩ | ⟨x, hx, hx0⟩)
      · exact absurd (hz.1 x hx) hx0
      · exact absurd (hz.2 x hx) hx0
  · have hb : (lb.test_max.all (fun x => x == 0) && lb.test_avg.all (fun x => x == 0)) = false := by
      rcases h : lb.test_max.all (fun x => x == 0) && lb.test_avg.all (fun x => x == 0) with _ | _
      · rfl
      · exact absurd (hall.mp h) hz
    have hp : plot_series lb =
        ["Maximum Score", "Average Score", "Maximum Test score", "Average Test score"] := by
      simp [plot_series, hb]
    constructor
    · rw [hp]
      constructor
      · intro _
        rcases not_and_or.mp hz with h | h
        · push_neg at h
          exact Or.inl h
        · push_neg at h
          exact Or.inr h
      · intro _
        rfl
    · intro h1 h2
      exact absurd ⟨h1, h2⟩ hz

/-- The index positions with a given mask value, as `enumerate`-based
filtering produces them. -/
theorem mem_enum_filter_pos {l : List Bool} {i : Nat} :
    i ∈ ((l.enum.filter (fun p => p.2)).map (fun p => p.1)) ↔ l[i]? = some true := by
  simp only [List.mem_map, List.mem_filter]
  constructor
  · rintro ⟨⟨j, x⟩, ⟨hmem, hx⟩, rfl⟩
    have hget := List.mk_mem_enum_iff_getElem?.1 hmem
    have hxt : x = true := hx
    rw [hget, hxt]
  · intro h
    exact ⟨(i, true), ⟨List.mk_mem_enum_iff_getElem?.2 h, rfl⟩, rfl⟩

/-- The index positions whose mask value is negated, as
`enumerate`-based filtering produces them. -/
theorem mem_enum_filter_neg {l : List Bool} {i : Nat} :
    i ∈ ((l.enum.filter (fun p => !p.2)).map (fun p => p.1)) ↔ l[i]? = some false := by
  simp only [List.mem_map, List.mem_filter]
  constructor
  · rintro ⟨⟨j, x⟩, ⟨hmem, hx⟩, rfl⟩
    have hget := List.mk_mem_enum_iff_getElem?.1 hmem
    have hxt : x = false := by
      cases x
      · rfl
      · exact absurd hx (by simp)
    rw [hget, hxt]
  · intro h
    exact ⟨(i, false), ⟨List.mk_mem_enum_iff_getElem?.2 h, rfl⟩, rfl⟩

/-- Filtering an enumeration and keeping the indices yields a strictly
increasing list: the partition is order-preserving. -/
theorem pairwise_lt_enumFrom_filter_map (p : Nat × Bool → Bool) :
    ∀ (l : List Bool) (n : Nat),
      List.Pairwise (fun a b => a < b) (((l.enumFrom n).filter p).map Prod.fst)
  | [], _ => by simp
  | b :: l, n => by
      rw [List.enumFrom]
      rcases hp : p (n, b) with _ | _
      · rw [List.filter_cons_of_neg (by simp [hp])]
        exact pairwise_lt_enumFrom_filter_map p l (n + 1)
      · rw [List.filter_cons_of_pos (by simp [hp]), List.map_cons]
        refine List.Pairwise.cons ?_ (pairwise_lt_enumFrom_filter_map p l (n + 1))
        intro x hx
        rcases List.mem_map.1 hx with ⟨⟨i, y⟩, hmem, rfl⟩
        have hle := (List.mk_mem_enumFrom_iff_le_and_getElem?_sub.1
          (List.mem_of_mem_filter hmem)).1
        omega

/-- C7: given a per-column categorical boolean mask, the imputation
selector partitions the column indices into two order-preserving sets —
numerical indices where the mask is `False` and categorical indices
where the mask is `True` (for mask `[True, False, True]`:
numerical = `[1]`, categorical = `[0, 2]`) — and the constructed
composite transformer fills missing values in numerical columns with
the column mean and in categorical columns with the column median
(present entries pass through unchanged). -/
theorem conditional_imput_spec (mask : List Bool) :
    ((conditional_imput mask).map TransformerSpec.strategy =
        [ImputeStrategy.mean, ImputeStrategy.median]) ∧
    ((conditional_imput mask).map TransformerSpec.name =
        ["mean_imputer", "median_imputer"]) ∧
    (∀ i, i ∈ ((conditional_imput mask).getD 0 default).columns ↔
        mask[i]? = some false) ∧
    (∀ i, i ∈ ((conditional_imput mask).getD 1 default).columns ↔
        mask[i]? = some true) ∧
    List.Pairwise (fun a b => a < b) ((conditional_imput mask).getD 0 default).columns ∧
    List.Pairwise (fun a b => a < b) ((conditional_imput mask).getD 1 default).columns ∧
    ((conditional_imput [true, false, true]).getD 0 default).columns = [1] ∧
    ((conditional_imput [true, false, true]).getD 1 default).columns = [0, 2] ∧
    (∀ (X : List (List (Option Rat))) j, mask[j]? = some false →
      imputeColumn ImputeStrategy.mean (getColumn X j) ∈
        transformOutput (conditional_imput mask) X) ∧
    (∀ (X : List (List (Option Rat))) j, mask[j]? = some true →
      imputeColumn ImputeStrategy.median (getColumn X j) ∈
        transformOutput (conditional_imput mask) X) ∧
    (∀ (s : ImputeStrategy) (col : List (Option Rat)) (k : Nat),
      col[k]? = some none →
        (imputeColumn s col)[k]? = some (fillValue s col)) ∧
    (∀ (s : ImputeStrategy) (col : List (Option Rat)) (k : Nat) (v : Rat),
      col[k]? = some (some v) → (imputeColumn s col)[k]? = some v) ∧
    (∀ col, fillValue ImputeStrategy.mean col = listMean (presentValues col)) ∧
    (∀ col, fillValue ImputeStrategy.median col = listMedian (presentValues col)) := by
  refine ⟨rfl, rfl, ?_, ?_, ?_, ?_, by decide, by decide, ?_, ?_, ?_, ?_,
    fun _ => rfl, fun _ => rfl⟩
  · intro i
    simpa [conditional_imput] using mem_enum_filter_neg (l := mask) (i := i)
  · intro i
    simpa [conditional_imput] using mem_enum_filter_pos (l := mask) (i := i)
  · simpa [conditional_imput, List.enum] using
      pairwise_lt_enumFrom_filter_map (fun p => !p.2) mask 0
  · simpa [conditional_imput, List.enum] using
      pairwise_lt_enumFrom_filter_map (fun p => p.2) mask 0
  · intro X j hj
    have hcol : j ∈ (mask.enum.filter (fun p => !p.2)).map (fun p => p.1) :=
      mem_enum_filter_neg.2 hj
    simp only [transformOutput, conditional_imput, List.flatMap_cons, List.flatMap_nil,
      List.append_nil, List.mem_append]
    exact Or.inl (List.mem_map.2 ⟨j, hcol, rfl⟩)
  · intro X j hj
    have hcol : j ∈ (mask.enum.filter (fun p => p.2)).map (fun p => p.1) :=
      mem_enum_filter_pos.2 hj
    simp only [transformOutput, conditional_imput, List.flatMap_cons, List.flatMap_nil,
      List.append_nil, List.mem_append]
    exact Or.inr (List.mem_map.2 ⟨j, hcol, rfl⟩)
  · intro s col k hk
    simp [imputeColumn, List.getElem?_map, hk]
  · intro s col k v hk
    simp [imputeColumn, List.getElem?_map, hk]

/-- Witness for C7: the spec's probe mask `[True, False, True]` and a
numerical column `[some 1, none, some 3]` whose missing middle entry is
filled with the column mean `2`, not the median. -/
theorem conditional_imput_spec_witness :
    ((conditional_imput [true, false, true]).getD 0 default).columns = [1] ∧
    (imputeColumn ImputeStrategy.mean [some 1, none, some 3])[1]? =
      some (fillValue ImputeStrategy.mean [some 1, none, some 3]) ∧
    fillValue ImputeStrategy.mean [some 1, none, some 3] = 2 :=
  ⟨(conditional_imput_spec [true, false, true]).2.2.2.2.2.2.1,
   (conditional_imput_spec [true, false, true]).2.2.2.2.2.2.2.2.2.2.1
     ImputeStrategy.mean [some 1, none, some 3] 1 rfl,
   by
     have h : presentValues [some 1, none, some 3] = [1, 3] := rfl
     rw [show fillValue ImputeStrategy.mean [some 1, none, some 3] =
       listMean (presentValues [some 1, none, some 3]) from rfl, listMean, h]
     norm_num⟩

/-- Witness for C6: a history with a non-zero test sample yields the
four-series plot, and an all-zero test history yields only the two
training-score series. -/
theorem plot_series_test_curves_iff_witness :
    plot_series { gen := [0], score_max := [1], score_avg := [1],
                  test_max := [1/2], test_avg := [0] } =
      ["Maximum Score", "Average Score", "Maximum Test score", "Average Test score"] ∧
    plot_series { gen := [0], score_max := [1], score_avg := [1],
                  test_max := [0], test_avg := [0] } =
      ["Maximum Score", "Average Score"] :=
  ⟨(plot_series_test_curves_iff _).1.mpr
      (Or.inl ⟨1/2, by norm_num, by norm_num⟩),
   (plot_series_test_curves_iff _).2 (by norm_num) (by norm_num)⟩

/-- C5: if the bounded fit call times out, the task is skipped entirely:
`run_task` returns normally with an unchanged filesystem, its trace is
exactly the data fetches, the fit start and one diagnostic naming the
task id and the dataset name — in particular it contains no artifact
write of any kind — and any non-timeout exception raised by the fit is
propagated as an error carrying the original message, not converted to
a timeout nor swallowed. -/
theorem fit_timeout_skips_task (tc : TaskCase) (out_dir : String)
    (timeout task_timeout : Option Nat) (fs : FS) :
    (fit_with_timeout tc.fit task_timeout = FitResult.timeout →
      run_task tc out_dir timeout task_timeout fs =
        RunOutcome.ok fs
          [Effect.fetchDataset tc.task_id, Effect.getData tc.task_id,
           Effect.fitStart tc.task_id,
           Effect.printMsg (timeoutDiag tc.task_id tc.datasetName)] ∧
      (RunOutcome.trace (run_task tc out_dir timeout task_timeout fs)).all
          (fun e => !(isArtifactWrite e)) = true) ∧
    (∀ e, fit_with_timeout tc.fit task_timeout = FitResult.raised e →
      run_task tc out_dir timeout task_timeout fs =
        RunOutcome.err e fs
          [Effect.fetchDataset tc.task_id, Effect.getData tc.task_id,
           Effect.fitStart tc.task_id]) := by
  constructor
  · intro h
    have heq : run_task tc out_dir timeout task_timeout fs =
        RunOutcome.ok fs
          [Effect.fetchDataset tc.task_id, Effect.getData tc.task_id,
           Effect.fitStart tc.task_id,
           Effect.printMsg (timeoutDiag tc.task_id tc.datasetName)] := by
      simp [run_task, h]
    refine ⟨heq, ?_⟩
    rw [heq]
    simp [RunOutcome.trace, isArtifactWrite]
  · intro e h
    simp [run_task, h]

/-- Witness for C5: a diverging fit under a 1-second deadline is skipped
with the diagnostic and no artifacts, and an immediately-raising fit
propagates its error. -/
theorem fit_timeout_skips_task_witness :
    run_task divergingTask "/o/vehicle" none (some 1) ⟨[], []⟩ =
      RunOutcome.ok ⟨[], []⟩
        [Effect.fetchDataset 2, Effect.getData 2, Effect.fitStart 2,
         Effect.printMsg (timeoutDiag 2 "vehicle")] ∧
    run_task raisingTask "/o/vehicle" none (some 1) ⟨[], []⟩ =
      RunOutcome.err "ValueError" ⟨[], []⟩
        [Effect.fetchDataset 2, Effect.getData 2, Effect.fitStart 2] :=
  ⟨((fit_timeout_skips_task divergingTask "/o/vehicle" none (some 1) ⟨[], []⟩).1 rfl).1,
   (fit_timeout_skips_task raisingTask "/o/vehicle" none (some 1) ⟨[], []⟩).2
     "ValueError" rfl⟩

/-- C1 (amended): the per-task deadline `task_timeout` bounds only the
Evolver fit call, not the whole of `run_task`: when the fit exceeds the
deadline, the fit is aborted, a diagnostic naming the task and dataset
is printed, all remaining stages are skipped and the call returns with
nothing written; the other stages are outside the deadline's scope —
`run_task`'s result does not depend on the wall-clock durations of
loading, imputing, recording or re-evaluation at all. -/
theorem task_timeout_bounds_fit_only (tc : TaskCase) (out_dir : String)
    (timeout : Option Nat) (tv : Nat) (fs : FS)
    (h : fit_with_timeout tc.fit (some tv) = FitResult.timeout) :
    run_task tc out_dir timeout (some tv) fs =
      RunOutcome.ok fs
        [Effect.fetchDataset tc.task_id, Effect.getData tc.task_id,
         Effect.fitStart tc.task_id,
         Effect.printMsg (timeoutDiag tc.task_id tc.datasetName)] ∧
    (∀ lt it rt ev,
      run_task { tc with loadTime := lt, imputeTime := it, recordTime := rt, evalTimes := ev }
          out_dir timeout (some tv) fs =
        run_task tc out_dir timeout (some tv) fs) := by
  constructor
  · simp [run_task, h]
  · intro lt it rt ev
    rfl

/-- Witness for C1's amended claim: the diverging task under a 1-second
deadline. -/
theorem task_timeout_bounds_fit_only_witness :
    run_task divergingTask "/o/vehicle" none (some 1) ⟨[], []⟩ =
      RunOutcome.ok ⟨[], []⟩
        [Effect.fetchDataset 2, Effect.getData 2, Effect.fitStart 2,
         Effect.printMsg (timeoutDiag 2 "vehicle")] ∧
    run_task { divergingTask with loadTime := 99, imputeTime := 99, recordTime := 99, evalTimes := [99] }
        "/o/vehicle" none (some 1) ⟨[], []⟩ =
      run_task divergingTask "/o/vehicle" none (some 1) ⟨[], []⟩ :=
  ⟨(task_timeout_bounds_fit_only divergingTask "/o/vehicle" none 1 ⟨[], []⟩ rfl).1,
   (task_timeout_bounds_fit_only divergingTask "/o/vehicle" none 1 ⟨[], []⟩ rfl).2
     99 99 99 [99]⟩

/-- C1 (counterexample to the claim as stated): for `slowReEvalTask`
under `task_timeout = 10`, the task-level deadline is exceeded during
re-evaluation (total elapsed 101 > 10), yet no diagnostic is printed
and the re-evaluation stage still runs to completion, writing its
artifacts — the deadline does not bound the stages after the fit. -/
theorem task_timeout_entire_task_counterexample :
    run_task_elapsed slowReEvalTask (some 10) > 10 ∧
    Effect.printMsg (timeoutDiag 7 "iris") ∉
      RunOutcome.trace (run_task slowReEvalTask "/out/iris" none (some 10) ⟨[], []⟩) ∧
    Effect.runModelOnTask 7 { pid := 0 } true false false ∈
      RunOutcome.trace (run_task slowReEvalTask "/out/iris" none (some 10) ⟨[], []⟩) ∧
    Effect.writeFile "/out/iris/run0/accuracy-score.txt" ∈
      RunOutcome.trace (run_task slowReEvalTask "/out/iris" none (some 10) ⟨[], []⟩) := by
  decide

/-- C9: after a completed fit, each of the top-5 ranked candidate
pipelines — the full pipeline object, not just its score — is pickled
to `pipeline{i}.pickle` for its rank `i`, using
`pickle.HIGHEST_PROTOCOL`. -/
theorem top5_pipelines_pickled (tc : TaskCase) (out_dir : String)
    (timeout task_timeout : Option Nat) (fs : FS)
    (lb : Logbook) (inds : List Individual) (pipes : List Pipeline)
    (h : fit_with_timeout tc.fit task_timeout = FitResult.done lb inds pipes)
    (i : Nat) (h5 : i < 5) (hl : i < pipes.length) :
    Effect.pickleDump (pipelinePickleName out_dir i) pickle_HIGHEST_PROTOCOL pipes[i] ∈
      RunOutcome.trace (run_task tc out_dir timeout task_timeout fs) := by
  have htake : (pipes.take 5)[i]? = some pipes[i] := by
    rw [List.getElem?_take, if_pos h5]
    exact List.getElem?_eq_getElem hl
  have hmem : (i, pipes[i]) ∈ (pipes.take 5).enum :=
    List.mk_mem_enum_iff_getElem?.2 htake
  have hmem2 : Effect.pickleDump (pipelinePickleName out_dir i)
      pickle_HIGHEST_PROTOCOL pipes[i] ∈
      (pipes.take 5).enum.map
        (fun p => Effect.pickleDump (pipelinePickleName out_dir p.1)
          pickle_HIGHEST_PROTOCOL p.2) :=
    List.mem_map.2 ⟨(i, pipes[i]), hmem, rfl⟩
  simp only [run_task, h, RunOutcome.trace, log_evolution, List.mem_append,
    List.append_assoc, List.mem_cons]
  tauto

/-- Witness for C9: the five-pipeline task pickles its rank-4 pipeline
with the highest protocol. -/
theorem top5_pipelines_pickled_witness :
    Effect.pickleDump (pipelinePickleName "/o/credit-g" 4) pickle_HIGHEST_PROTOCOL
        { pid := 4 } ∈
      RunOutcome.trace (run_task fivePipeTask "/o/credit-g" none none ⟨[], []⟩) :=
  top5_pipelines_pickled fivePipeTask "/o/credit-g" none none ⟨[], []⟩
    { gen := [0], score_max := [1], score_avg := [1], test_max := [0], test_avg := [0] }
    [] [{ pid := 0 }, { pid := 1 }, { pid := 2 }, { pid := 3 }, { pid := 4 }]
    rfl 4 (by norm_num) (by norm_num)

/-- C2 (code behavior at the failing input): with the candidate's
`run0` sub-directory already present, `run_task` logs the collision
message but does not skip the candidate — the external evaluation
still runs and its files are still written into the existing
directory, because the source discards `_create_dir_check`'s result in
the re-evaluation loop. -/
theorem rank_dir_collision_not_skipped :
    Effect.printMsg (dirExistsMsg "/out/splice/run0") ∈
      RunOutcome.trace (run_task rankCollisionTask "/out/splice" none none
        ⟨["/out/splice/run0"], []⟩) ∧
    Effect.runModelOnTask 11 { pid := 3 } true false false ∈
      RunOutcome.trace (run_task rankCollisionTask "/out/splice" none none
        ⟨["/out/splice/run0"], []⟩) ∧
    Effect.writeFile "/out/splice/run0/accuracy-score.txt" ∈
      RunOutcome.trace (run_task rankCollisionTask "/out/splice" none none
        ⟨["/out/splice/run0"], []⟩) ∧
    Effect.runToFilesystem "/out/splice/run0" ∈
      RunOutcome.trace (run_task rankCollisionTask "/out/splice" none none
        ⟨["/out/splice/run0"], []⟩) := by
  decide

/-- C3 (code behavior at the failing input): for output root `/out` and
dataset `anneal`, the orchestrator checks and creates `/anneal` — a
directory at the filesystem root — while the task's artifacts are
written under `/out/anneal`, which is never the directory whose
existence was checked. -/
theorem resumability_dir_mismatch :
    Effect.mkdirOk "/anneal" ∈
      RunOutcome.trace (run_tests none "/out" [mismatchTask] none none ⟨[], []⟩) ∧
    Effect.writeFile "/out/anneal/time.txt" ∈
      RunOutcome.trace (run_tests none "/out" [mismatchTask] none none ⟨[], []⟩) ∧
    Effect.mkdirOk "/out/anneal" ∉
      RunOutcome.trace (run_tests none "/out" [mismatchTask] none none ⟨[], []⟩) ∧
    "/anneal" ∈ RunOutcome.finalDirs (run_tests none "/out" [mismatchTask] none none ⟨[], []⟩) ∧
    "/out/anneal" ∉
      RunOutcome.finalDirs (run_tests none "/out" [mismatchTask] none none ⟨[], []⟩) ∧
    ("/anneal" : String) ≠ "/out/anneal" := by
  decide

/-- C8: when an explicit subset of task identifiers is supplied, a
suite task whose identifier is absent from the subset contributes
nothing: running the suite `[A, B]` with subset `{A}` is identical to
running the suite `[A]` alone, and running `[B]` alone with subset
`{A}` performs no effect at all and leaves the filesystem untouched. -/
theorem explicit_subset_skips_absent_tasks (A B : TaskCase) (out_dir : String)
    (timeout task_timeout : Option Nat) (fs : FS) (h : B.task_id ≠ A.task_id) :
    run_tests (some [A.task_id]) out_dir [A, B] timeout task_timeout fs =
      run_tests (some [A.task_id]) out_dir [A] timeout task_timeout fs ∧
    run_tests (some [A.task_id]) out_dir [B] timeout task_timeout fs =
      RunOutcome.ok fs [] := by
  have hskip : ∀ fs', run_tests (some [A.task_id]) out_dir [B] timeout task_timeout fs' =
      RunOutcome.ok fs' [] := by
    intro fs'
    simp [run_tests, h]
  refine ⟨?_, hskip fs⟩
  unfold run_tests
  simp only [hskip]
  rfl

/-- Witness for C8: two concrete tasks with distinct identifiers. -/
theorem explicit_subset_skips_absent_tasks_witness :
    run_tests (some [7]) "/out" [slowReEvalTask, fivePipeTask] none none ⟨[], []⟩ =
      run_tests (some [7]) "/out" [slowReEvalTask] none none ⟨[], []⟩ ∧
    run_tests (some [7]) "/out" [fivePipeTask] none none ⟨[], []⟩ =
      RunOutcome.ok ⟨[], []⟩ [] :=
  explicit_subset_skips_absent_tasks slowReEvalTask fivePipeTask "/out" none none
    ⟨[], []⟩ (by decide)

/-- C10: a task whose fit times out leaves exactly the directory the
orchestrator created before invoking `run_task`, with no artifact
write anywhere in the run's trace; invoking the orchestrator again
with the same output root and task set finds that directory, skips the
task via the directory-existence check (logging the collision) and
never reaches the fit — so a timed-out task is never retried, being
indistinguishable from a completed one by the skip check alone. -/
theorem timed_out_task_skipped_on_rerun (tc : TaskCase) (out_dir : String)
    (timeout : Option Nat) (tv : Nat) (fs : FS)
    (hfit : fit_with_timeout tc.fit (some tv) = FitResult.timeout)
    (hnew : ("/" ++ tc.datasetName) ∉ fs.dirs) :
    run_tests none out_dir [tc] timeout (some tv) fs =
      RunOutcome.ok (fs.addDir ("/" ++ tc.datasetName))
        [Effect.fetchTask tc.task_id, Effect.fetchDataset tc.task_id,
         Effect.mkdirOk ("/" ++ tc.datasetName),
         Effect.fetchDataset tc.task_id, Effect.getData tc.task_id,
         Effect.fitStart tc.task_id,
         Effect.printMsg (timeoutDiag tc.task_id tc.datasetName)] ∧
    ([Effect.fetchTask tc.task_id, Effect.fetchDataset tc.task_id,
      Effect.mkdirOk ("/" ++ tc.datasetName),
      Effect.fetchDataset tc.task_id, Effect.getData tc.task_id,
      Effect.fitStart tc.task_id,
      Effect.printMsg (timeoutDiag tc.task_id tc.datasetName)]).all
        (fun e => !(isArtifactWrite e)) = true ∧
    ("/" ++ tc.datasetName) ∈ (fs.addDir ("/" ++ tc.datasetName)).dirs ∧
    run_tests none out_dir [tc] timeout (some tv) (fs.addDir ("/" ++ tc.datasetName)) =
      RunOutcome.ok (fs.addDir ("/" ++ tc.datasetName))
        [Effect.fetchTask tc.task_id, Effect.fetchDataset tc.task_id,
         Effect.printMsg (dirExistsMsg ("/" ++ tc.datasetName))] ∧
    Effect.fitStart tc.task_id ∉
      RunOutcome.trace (run_tests none out_dir [tc] timeout (some tv)
        (fs.addDir ("/" ++ tc.datasetName))) := by
  have h2 : run_tests none out_dir [tc] timeout (some tv) (fs.addDir ("/" ++ tc.datasetName)) =
      RunOutcome.ok (fs.addDir ("/" ++ tc.datasetName))
        [Effect.fetchTask tc.task_id, Effect.fetchDataset tc.task_id,
         Effect.printMsg (dirExistsMsg ("/" ++ tc.datasetName))] := by
    simp [run_tests, create_dir_check, FS.addDir, prependTrace]
  refine ⟨?_, by simp [isArtifactWrite], by simp [FS.addDir], h2, ?_⟩
  · simp [run_tests, create_dir_check, hnew, run_task, hfit, prependTrace, FS.addDir]
  · rw [h2]
    simp [RunOutcome.trace]

/-- Witness for C10: the diverging task under a 1-second deadline on an
empty filesystem. -/
theorem timed_out_task_skipped_on_rerun_witness :
    run_tests none "/out" [divergingTask] none (some 1) ⟨[], []⟩ =
      RunOutcome.ok ⟨["/vehicle"], []⟩
        [Effect.fetchTask 2, Effect.fetchDataset 2, Effect.mkdirOk "/vehicle",
         Effect.fetchDataset 2, Effect.getData 2, Effect.fitStart 2,
         Effect.printMsg (timeoutDiag 2 "vehicle")] ∧
    run_tests none "/out" [divergingTask] none (some 1) ⟨["/vehicle"], []⟩ =
      RunOutcome.ok ⟨["/vehicle"], []⟩
        [Effect.fetchTask 2, Effect.fetchDataset 2,
         Effect.printMsg (dirExistsMsg "/vehicle")] :=
  ⟨(timed_out_task_skipped_on_rerun divergingTask "/out" none 1 ⟨[], []⟩ rfl
      (by decide)).1,
   (timed_out_task_skipped_on_rerun divergingTask "/out" none 1 ⟨[], []⟩ rfl
      (by decide)).2.2.2.1⟩

end Genens
